import Mathlib

/- Shallow embedding of the tooltip interaction system of
   src/scripts/tooltips.js (class TooltipManager), together with the helpers
   it uses from src/scripts/main.js (projectData, utils.isTouchDevice,
   utils.getViewportSize).

   Modelling conventions:
   * Hotspot elements are identified by natural numbers; the data-project
     attribute of hotspot h is given by an environment function dataset, and
     window.projectData is an environment lookup from project keys to
     ProjectInfo (mirroring the object literal at the top of main.js).
   * setTimeout returns a fresh numeric handle; an outstanding timer is a
     record holding its handle, its kind (show or hide), the hotspot it will
     show, and its absolute deadline in milliseconds.  clearTimeout removes
     the timer with the given handle (a no-op on null or stale handles,
     as in the browser).  The JS fields this.showTimeout / this.hideTimeout
     store the last handle of each kind and are not nulled out when cleared,
     exactly as in the source.
   * The visible class added inside requestAnimationFrame in showTooltip is
     modelled as taking effect with the show itself.
   * positionTooltip and updateTooltipPosition only write style properties;
     they are embedded as pure functions over rational pixel geometry and
     kept outside the interaction state, which tracks visibility, the active
     hotspot, the set of hotspots carrying the active class, the tooltip
     content written by populateTooltip, and the outstanding timers. -/

namespace Turfmapp

/-- ProjectInfo mirrors one entry of the projectData object literal in
src/scripts/main.js: title, description, tech list and the two URLs. -/
structure ProjectInfo where
  title : String
  description : String
  tech : List String
  liveUrl : String
  githubUrl : String
deriving DecidableEq

/-- projectData mirrors the object literal at the top of src/scripts/main.js:
five projects keyed project1 .. project5; any other key is absent. -/
def projectData : String → Option ProjectInfo := fun key =>
  match key with
  | "project1" => some
      { title := "E-Commerce Platform"
      , description := "Full-stack online shopping platform with payment integration, user authentication, and admin dashboard."
      , tech := ["React", "Node.js", "MongoDB", "Stripe"]
      , liveUrl := "https://example.com"
      , githubUrl := "https://github.com/username/project1" }
  | "project2" => some
      { title := "Weather Dashboard"
      , description := "Real-time weather application with geolocation, forecasts, and interactive maps."
      , tech := ["Vue.js", "API Integration", "Chart.js"]
      , liveUrl := "https://example.com"
      , githubUrl := "https://github.com/username/project2" }
  | "project3" => some
      { title := "Task Management App"
      , description := "Collaborative project management tool with real-time updates, file sharing, and team chat."
      , tech := ["Angular", "Firebase", "WebSocket"]
      , liveUrl := "https://example.com"
      , githubUrl := "https://github.com/username/project3" }
  | "project4" => some
      { title := "AI Image Generator"
      , description := "Machine learning powered image generation tool with custom training models."
      , tech := ["Python", "TensorFlow", "Flask", "AWS"]
      , liveUrl := "https://example.com"
      , githubUrl := "https://github.com/username/project4" }
  | "project5" => some
      { title := "Social Media Analytics"
      , description := "Data visualization platform for social media metrics with predictive analytics."
      , tech := ["D3.js", "Python", "PostgreSQL", "Docker"]
      , liveUrl := "https://example.com"
      , githubUrl := "https://github.com/username/project5" }
  | _ => none

/-- Env packages the read-only collaborators of TooltipManager: the
data-project attribute of each hotspot element and the window.projectData
registry consulted by showTooltip. -/
structure Env where
  dataset : Nat → String
  projectData : String → Option ProjectInfo

/-- demoEnv is the concrete environment of the repository: hotspot h carries
data-project "projecth" (as in the index.html markup documented in the
README), looked up in the projectData literal of main.js. -/
def demoEnv : Env :=
  { dataset := fun h => "project" ++ toString h
  , projectData := projectData }

/-- Timer models one pending setTimeout callback: its numeric handle, whether
it is a show timer (scheduled in handleMouseEnter) or a hide timer (scheduled
in handleMouseLeave), the hotspot the show callback will display, and the
absolute time at which it becomes due. -/
structure Timer where
  id : Nat
  isShow : Bool
  target : Nat
  deadline : Nat
deriving DecidableEq

/-- TooltipDom records the content fields written by populateTooltip: the
textContent of the title and description nodes, the innerHTML of the tech
container, and the href / display style of the two links. -/
structure TooltipDom where
  title : String
  description : String
  techHTML : String
  liveHref : String
  liveDisplay : String
  githubHref : String
  githubDisplay : String
deriving DecidableEq

/-- emptyDom is the tooltip content before any populateTooltip call. -/
def emptyDom : TooltipDom :=
  { title := "", description := "", techHTML := ""
  , liveHref := "", liveDisplay := "", githubHref := "", githubDisplay := "" }

/-- TMState is the mutable state of a TooltipManager instance: the visible
class on the tooltip element, this.activeHotspot, the set of hotspot elements
currently carrying the active class, the outstanding timers with the stored
this.showTimeout / this.hideTimeout handles, the next fresh timer handle, and
the tooltip content. -/
structure TMState where
  visible : Bool
  activeHotspot : Option Nat
  activeFlags : List Nat
  timers : List Timer
  showTimeout : Option Nat
  hideTimeout : Option Nat
  nextId : Nat
  dom : TooltipDom
deriving DecidableEq

/-- initState is the state right after the constructor ran: nothing visible,
no active hotspot, no timers, both stored handles null. -/
def initState : TMState :=
  { visible := false, activeHotspot := none, activeFlags := []
  , timers := [], showTimeout := none, hideTimeout := none
  , nextId := 0, dom := emptyDom }

/-- showDelay is the constructor constant this.showDelay = 300. -/
def showDelay : Nat := 300

/-- hideDelay is the constructor constant this.hideDelay = 150. -/
def hideDelay : Nat := 150

/-- clearTimeoutL removes the timer with the given handle from the pending
list; passing null (none) or an already fired or cleared handle is a no-op,
as for window.clearTimeout. -/
def clearTimeoutL (h : Option Nat) (ts : List Timer) : List Timer :=
  match h with
  | none => ts
  | some i => ts.filter (fun tm => tm.id != i)

/-- addClass models classList.add: appends the element if it is absent. -/
def addClass (h : Nat) (l : List Nat) : List Nat :=
  if h ∈ l then l else l ++ [h]

/-- techHtml mirrors the innerHTML written by populateTooltip for the tech
container: one span.tech-tag element per tech entry, joined without
separator. -/
def techHtml (tech : List String) : String :=
  String.join (tech.map (fun t => "<span class=\"tech-tag\">" ++ t ++ "</span>"))

/-- populateTooltip mirrors TooltipManager.populateTooltip: it overwrites the
title and description text, the tech innerHTML, and the link hrefs, showing
each link only when its URL is truthy (non-empty string). -/
def populateTooltip (info : ProjectInfo) : TooltipDom :=
  { title := info.title
  , description := info.description
  , techHTML := techHtml info.tech
  , liveHref := info.liveUrl
  , liveDisplay := if info.liveUrl = "" then "none" else "inline-block"
  , githubHref := info.githubUrl
  , githubDisplay := if info.githubUrl = "" then "none" else "inline-block" }

/-- showTooltip mirrors TooltipManager.showTooltip.  On a registry miss it
warns (the returned flag) and returns with the state unchanged.  Otherwise it
sets this.activeHotspot, populates the content, marks the tooltip visible and
adds the active class to the given hotspot (the style writes of
positionTooltip are modelled separately as a pure function). -/
def showTooltip (env : Env) (h : Nat) (s : TMState) : TMState × Bool :=
  match env.projectData (env.dataset h) with
  | none => (s, true)
  | some info =>
      ({ s with activeHotspot := some h
              , dom := populateTooltip info
              , visible := true
              , activeFlags := addClass h s.activeFlags }, false)

/-- hideTooltip mirrors TooltipManager.hideTooltip: remove the visible class,
remove the active class from this.activeHotspot and null it, then clear both
stored timer handles.  (The guard on a missing tooltip element never fires in
an initialized manager and is omitted.) -/
def hideTooltip (s : TMState) : TMState :=
  { s with visible := false
         , activeFlags :=
             match s.activeHotspot with
             | some a => s.activeFlags.filter (fun b => b != a)
             | none => s.activeFlags
         , activeHotspot := none
         , timers := clearTimeoutL s.hideTimeout (clearTimeoutL s.showTimeout s.timers) }

/-- handleMouseEnter mirrors TooltipManager.handleMouseEnter at time t:
clearTimeout(this.hideTimeout), then this.showTimeout = setTimeout(show,
this.showDelay).  Note that a prior show timer is not cleared; only its
stored handle is overwritten. -/
def handleMouseEnter (t : Nat) (h : Nat) (s : TMState) : TMState :=
  { s with timers := clearTimeoutL s.hideTimeout s.timers
                       ++ [⟨s.nextId, true, h, t + showDelay⟩]
         , showTimeout := some s.nextId
         , nextId := s.nextId + 1 }

/-- handleMouseLeave mirrors TooltipManager.handleMouseLeave at time t:
clearTimeout(this.showTimeout), then this.hideTimeout = setTimeout(hide,
this.hideDelay). -/
def handleMouseLeave (t : Nat) (h : Nat) (s : TMState) : TMState :=
  { s with timers := clearTimeoutL s.showTimeout s.timers
                       ++ [⟨s.nextId, false, h, t + hideDelay⟩]
         , hideTimeout := some s.nextId
         , nextId := s.nextId + 1 }

/-- handleTouchStart mirrors TooltipManager.handleTouchStart: preventDefault
and an immediate showTooltip. -/
def handleTouchStart (env : Env) (h : Nat) (s : TMState) : TMState :=
  (showTooltip env h s).1

/-- handleClick mirrors TooltipManager.handleClick: toggle off when the
clicked hotspot is the active one and the tooltip is visible, otherwise show
it (stopPropagation keeps the document click handler from also running). -/
def handleClick (env : Env) (h : Nat) (s : TMState) : TMState :=
  if s.activeHotspot = some h ∧ s.visible = true then hideTooltip s
  else (showTooltip env h s).1

/-- handleDocumentClick models a document click outside the tooltip and
outside every hotspot, the only case in which the handler in the source calls
hideTooltip. -/
def handleDocumentClick (s : TMState) : TMState :=
  hideTooltip s

/-- fireTimer models the event loop running the callback of the due timer
with the given handle: the timer is consumed, then the scheduled closure runs
(showTooltip for a show timer, hideTooltip for a hide timer). -/
def fireTimer (env : Env) (i : Nat) (s : TMState) : TMState :=
  match s.timers.find? (fun tm => tm.id == i) with
  | none => s
  | some tm =>
      let s1 : TMState := { s with timers := s.timers.filter (fun tm2 => tm2.id != i) }
      if tm.isShow then (showTooltip env tm.target s1).1 else hideTooltip s1

/-- Ev enumerates the discrete events the component reacts to: the DOM events
bound in bindEvents plus the expiry of a pending timer. -/
inductive Ev where
  | enter (h : Nat)
  | leave (h : Nat)
  | touch (h : Nat)
  | click (h : Nat)
  | docClick
  | scroll
  | fire (i : Nat)
deriving DecidableEq

/-- step dispatches one timestamped event to the handler the source binds for
it (scroll is bound directly to hideTooltip). -/
def step (env : Env) (s : TMState) : Nat × Ev → TMState
  | (t, Ev.enter h) => handleMouseEnter t h s
  | (t, Ev.leave h) => handleMouseLeave t h s
  | (_, Ev.touch h) => handleTouchStart env h s
  | (_, Ev.click h) => handleClick env h s
  | (_, Ev.docClick) => handleDocumentClick s
  | (_, Ev.scroll) => hideTooltip s
  | (_, Ev.fire i) => fireTimer env i s

/-- run folds a list of timestamped events through step. -/
def run (env : Env) (s : TMState) (evs : List (Nat × Ev)) : TMState :=
  evs.foldl (fun s1 e => step env s1 e) s

/-- fireOkB says a fire event at time t is possible: some pending timer has
that handle and its deadline has passed.  DOM events are always possible. -/
def fireOkB (s : TMState) (t : Nat) : Ev → Bool
  | Ev.fire i => s.timers.any (fun tm => tm.id == i && decide (tm.deadline ≤ t))
  | _ => true

/-- validB checks a timestamped trace against the event loop semantics: times
never decrease and a timer callback only runs while it is pending and due. -/
def validB (env : Env) : Nat → TMState → List (Nat × Ev) → Bool
  | _, _, [] => true
  | t0, s, (t, e) :: rest =>
      decide (t0 ≤ t) && fireOkB s t e && validB env t (step env s (t, e)) rest

/-- Size models the result of utils.getViewportSize, and likewise the width
and height of a getBoundingClientRect result where only those matter. -/
structure Size where
  width : ℚ
  height : ℚ
deriving DecidableEq

/-- Rect models a getBoundingClientRect result (left, top, width, height;
right and bottom are the derived sums, as in the DOM). -/
structure Rect where
  left : ℚ
  top : ℚ
  width : ℚ
  height : ℚ
deriving DecidableEq

/-- Rect.right is the derived right edge of a client rect. -/
def Rect.right (r : Rect) : ℚ := r.left + r.width

/-- Rect.bottom is the derived bottom edge of a client rect. -/
def Rect.bottom (r : Rect) : ℚ := r.top + r.height

/-- CssLen is a value written to a CSS inset property by positionTooltip:
a pixel length, a percentage, or the keyword auto. -/
inductive CssLen where
  | px (v : ℚ)
  | pct (v : ℚ)
  | auto
deriving DecidableEq

/-- Transform is the transform style written by the positioning code. -/
inductive Transform where
  | translateXHalf
  | translateYHalf
  | noTransform
deriving DecidableEq

/-- Side is the placement tag interpolated into the tooltip className. -/
inductive Side where
  | top
  | bottom
  | left
  | right
deriving DecidableEq

/-- TooltipStyle collects the style writes of one positionTooltip call; a
none field is a property the call did not write. -/
structure TooltipStyle where
  left : Option CssLen
  top : Option CssLen
  bottom : Option CssLen
  transform : Transform
  side : Side
deriving DecidableEq

/-- positionTooltip mirrors TooltipManager.positionTooltip as a pure function
of the touch predicate, viewport size and the two client rects.  The mobile
branch (touch device or viewport narrower than 768) writes the fixed
bottom-sheet style; the desktop branch computes the anchored placement with
its three screen-edge adjustments. -/
def positionTooltip (isTouch : Bool) (viewport : Size)
    (tooltipRect hotspotRect : Rect) : TooltipStyle :=
  if isTouch = true ∨ viewport.width < 768 then
    { left := some (CssLen.pct 50)
    , top := some CssLen.auto
    , bottom := some (CssLen.px 20)
    , transform := Transform.translateXHalf
    , side := Side.bottom }
  else
    let spacing : ℚ := 15
    let left0 : ℚ := hotspotRect.left + hotspotRect.width / 2
    let top0 : ℚ := hotspotRect.top - tooltipRect.height - spacing
    let p1 : ℚ × ℚ × Side :=
      if top0 < spacing then (left0, hotspotRect.bottom + spacing, Side.bottom)
      else (left0, top0, Side.top)
    let p2 : ℚ × ℚ × Side :=
      if p1.1 + tooltipRect.width / 2 > viewport.width - spacing then
        (hotspotRect.right + spacing,
         hotspotRect.top + hotspotRect.height / 2 - tooltipRect.height / 2,
         Side.left)
      else p1
    let p3 : ℚ × ℚ × Side :=
      if p2.1 - tooltipRect.width / 2 < spacing then
        (hotspotRect.left - spacing,
         hotspotRect.top + hotspotRect.height / 2 - tooltipRect.height / 2,
         Side.right)
      else p2
    { left := some (CssLen.px p3.1)
    , top := some (CssLen.px p3.2.1)
    , bottom := none
    , transform :=
        if p3.2.2 = Side.top ∨ p3.2.2 = Side.bottom then Transform.translateXHalf
        else Transform.translateYHalf
    , side := p3.2.2 }

/-- followPosition is the position computed by the mouse-follow block of
TooltipManager.updateTooltipPosition: left at the cursor, top 15px above the
tooltip height over the cursor, clamped right then left, with a fallback
below the cursor when clipping above. -/
def followPosition (viewport : Size) (tw th x y : ℚ) : ℚ × ℚ :=
  let spacing : ℚ := 15
  let left0 : ℚ := x
  let top0 : ℚ := y - th - spacing
  let left1 : ℚ :=
    if left0 + tw > viewport.width - spacing then viewport.width - tw - spacing
    else left0
  let left2 : ℚ := if left1 < spacing then spacing else left1
  let top1 : ℚ := if top0 < spacing then y + spacing else top0
  (left2, top1)

/-- updateTooltipPosition mirrors TooltipManager.updateTooltipPosition: it
bails out (writes nothing) unless a hotspot is active and the tooltip has the
visible class, and the follow block additionally requires a mouse event on a
non-touch device; otherwise it writes the followPosition pixels (with
transform none). -/
def updateTooltipPosition (hasActive visibleCls : Bool) (isTouch : Bool)
    (viewport : Size) (tw th x y : ℚ) : Option (ℚ × ℚ) :=
  if hasActive = false ∨ visibleCls = false then none
  else if isTouch = true then none
  else some (followPosition viewport tw th x y)

/-- EvtName enumerates the DOM event names used by bindEvents and destroy. -/
inductive EvtName where
  | mouseenter
  | mouseleave
  | mousemove
  | touchstart
  | click
  | scroll
  | resize
deriving DecidableEq

/-- EvtTarget is the object a listener is attached to. -/
inductive EvtTarget where
  | hotspotEl (h : Nat)
  | document
  | window
deriving DecidableEq

/-- JsFun models JavaScript function identity.  Each arrow constructor is the
closure literal created at the corresponding addEventListener call site in
bindEvents (one per hotspot for the per-hotspot listeners); debouncedResize
is the wrapper produced by utils.debounce; the method constructors are the
bound-method properties passed to removeEventListener in destroy.  Distinct
constructors are distinct function objects, exactly as in JavaScript. -/
inductive JsFun where
  | arrowEnter (h : Nat)
  | arrowLeave (h : Nat)
  | arrowMove (h : Nat)
  | arrowTouch (h : Nat)
  | arrowClickOnHotspot (h : Nat)
  | arrowDocClick
  | arrowScroll
  | debouncedResize
  | methodMouseEnter
  | methodMouseLeave
  | methodMouseMove
  | methodTouchStart
  | methodClick
  | methodDocumentClick
  | methodHideTooltip
  | methodUpdatePosition
deriving DecidableEq

/-- Listener is one registered (target, event name, function) triple. -/
structure Listener where
  target : EvtTarget
  name : EvtName
  fn : JsFun
deriving DecidableEq

/-- bindEvents mirrors TooltipManager.bindEvents over the hotspot list: five
fresh arrow listeners per hotspot, then the document click listener, the
window scroll listener and the debounced window resize listener. -/
def bindEvents (hs : List Nat) : List Listener :=
  (hs.flatMap (fun h =>
    [ ⟨EvtTarget.hotspotEl h, EvtName.mouseenter, JsFun.arrowEnter h⟩
    , ⟨EvtTarget.hotspotEl h, EvtName.mouseleave, JsFun.arrowLeave h⟩
    , ⟨EvtTarget.hotspotEl h, EvtName.mousemove, JsFun.arrowMove h⟩
    , ⟨EvtTarget.hotspotEl h, EvtName.touchstart, JsFun.arrowTouch h⟩
    , ⟨EvtTarget.hotspotEl h, EvtName.click, JsFun.arrowClickOnHotspot h⟩ ]))
  ++ [ ⟨EvtTarget.document, EvtName.click, JsFun.arrowDocClick⟩
     , ⟨EvtTarget.window, EvtName.scroll, JsFun.arrowScroll⟩
     , ⟨EvtTarget.window, EvtName.resize, JsFun.debouncedResize⟩ ]

/-- removeEventListener removes the listeners matching the exact (target,
name, function identity) triple, as the DOM does. -/
def removeEventListener (tg : EvtTarget) (n : EvtName) (f : JsFun)
    (ls : List Listener) : List Listener :=
  ls.filter (fun l => !(l.target == tg && l.name == n && l.fn == f))

/-- destroyRemovals mirrors the removeEventListener calls of
TooltipManager.destroy: for each hotspot the five method references, then the
document click, window scroll (this.hideTooltip) and window resize
(this.updateTooltipPosition) method references. -/
def destroyRemovals (hs : List Nat) (ls : List Listener) : List Listener :=
  let ls1 := hs.foldl (fun acc h =>
    removeEventListener (EvtTarget.hotspotEl h) EvtName.click JsFun.methodClick
      (removeEventListener (EvtTarget.hotspotEl h) EvtName.touchstart JsFun.methodTouchStart
        (removeEventListener (EvtTarget.hotspotEl h) EvtName.mousemove JsFun.methodMouseMove
          (removeEventListener (EvtTarget.hotspotEl h) EvtName.mouseleave JsFun.methodMouseLeave
            (removeEventListener (EvtTarget.hotspotEl h) EvtName.mouseenter JsFun.methodMouseEnter acc))))) ls
  removeEventListener EvtTarget.window EvtName.resize JsFun.methodUpdatePosition
    (removeEventListener EvtTarget.window EvtName.scroll JsFun.methodHideTooltip
      (removeEventListener EvtTarget.document EvtName.click JsFun.methodDocumentClick ls1))

/-- destroy mirrors TooltipManager.destroy on the combined interaction and
listener state: hideTooltip (which also clears both timer handles), then the
removeEventListener calls. -/
def destroy (hs : List Nat) (s : TMState) (ls : List Listener) :
    TMState × List Listener :=
  (hideTooltip s, destroyRemovals hs ls)

/-- showCount is the number of outstanding show timers. -/
def showCount (s : TMState) : Nat :=
  s.timers.countP (fun tm => tm.isShow)

/-- hideCount is the number of outstanding hide timers. -/
def hideCount (s : TMState) : Nat :=
  s.timers.countP (fun tm => !tm.isShow)

/-- TimersOk is the handle discipline of a well-behaved state: pending timer
handles are distinct and fresh, every pending show timer is the one stored in
this.showTimeout, and every pending hide timer is the one stored in
this.hideTimeout. -/
def TimersOk (s : TMState) : Prop :=
  (s.timers.map Timer.id).Nodup ∧
  (∀ tm ∈ s.timers, tm.id < s.nextId) ∧
  (∀ tm ∈ s.timers, tm.isShow = true → s.showTimeout = some tm.id) ∧
  (∀ tm ∈ s.timers, tm.isShow = false → s.hideTimeout = some tm.id)

/-- phaseStep tracks which of mouse-enter / mouse-leave happened last. -/
def phaseStep (p : Option Bool) : Ev → Option Bool
  | Ev.enter _ => some true
  | Ev.leave _ => some false
  | _ => p

/-- altEvOkB allows an event unless it repeats the last hover kind: the DOM
fires mouseenter and mouseleave alternately on non-nested hotspots. -/
def altEvOkB (p : Option Bool) : Ev → Bool
  | Ev.enter _ => !(p == some true)
  | Ev.leave _ => !(p == some false)
  | _ => true

/-- altOkB checks hover alternation along a whole trace. -/
def altOkB : Option Bool → List (Nat × Ev) → Bool
  | _, [] => true
  | p, (_, e) :: rest => altEvOkB p e && altOkB (phaseStep p e) rest

/-- Inv strengthens TimersOk with the phase information needed for the
induction: there is no pending show timer unless the last hover event was an
enter, and no pending hide timer unless it was a leave. -/
def Inv (s : TMState) (p : Option Bool) : Prop :=
  TimersOk s ∧ (p ≠ some true → showCount s = 0) ∧ (p ≠ some false → hideCount s = 0)

lemma mem_clearTimeoutL {tm : Timer} {h : Option Nat} {ts : List Timer} :
    tm ∈ clearTimeoutL h ts ↔ tm ∈ ts ∧ ∀ i, h = some i → tm.id ≠ i := by
  cases h with
  | none => simp [clearTimeoutL]
  | some i => simp [clearTimeoutL, List.mem_filter]

lemma clearTimeoutL_sublist (h : Option Nat) (ts : List Timer) :
    (clearTimeoutL h ts).Sublist ts := by
  cases h with
  | none => exact List.Sublist.refl ts
  | some i => exact List.filter_sublist ts

lemma clearTimeoutL_nil (h : Option Nat) : clearTimeoutL h [] = [] := by
  cases h <;> rfl

lemma showTooltip_fst_frame (env : Env) (h : Nat) (s : TMState) :
    (showTooltip env h s).1.timers = s.timers ∧
    (showTooltip env h s).1.showTimeout = s.showTimeout ∧
    (showTooltip env h s).1.hideTimeout = s.hideTimeout ∧
    (showTooltip env h s).1.nextId = s.nextId := by
  unfold showTooltip
  cases env.projectData (env.dataset h) <;> simp

lemma hideTooltip_timers_nil {s : TMState} (hOk : TimersOk s) :
    (hideTooltip s).timers = [] := by
  rcases hOk with ⟨-, -, hshow, hhide⟩
  rw [List.eq_nil_iff_forall_not_mem]
  intro tm htm
  have h1 : tm ∈ clearTimeoutL s.hideTimeout (clearTimeoutL s.showTimeout s.timers) := htm
  rcases mem_clearTimeoutL.mp h1 with ⟨h2, hnh⟩
  rcases mem_clearTimeoutL.mp h2 with ⟨h3, hns⟩
  cases hb : tm.isShow with
  | true => exact hns tm.id (hshow tm h3 hb) rfl
  | false => exact hnh tm.id (hhide tm h3 hb) rfl

lemma timersOk_nil {s : TMState} (h : s.timers = []) : TimersOk s := by
  refine ⟨?_, ?_, ?_, ?_⟩ <;> simp [h]

lemma length_le_one_of_nodup_const {l : List Nat} {k : Nat} (hnd : l.Nodup)
    (hall : ∀ x ∈ l, x = k) : l.length ≤ 1 := by
  cases l with
  | nil => simp
  | cons a t =>
      cases t with
      | nil => simp
      | cons b t2 =>
          exfalso
          have ha := hall a (by simp)
          have hb := hall b (by simp)
          rw [List.nodup_cons] at hnd
          exact hnd.1 (by simp [ha, hb])

lemma showCount_le_one {s : TMState} (hOk : TimersOk s) : showCount s ≤ 1 := by
  rcases hOk with ⟨hnd, -, hshow, -⟩
  rw [showCount, List.countP_eq_length_filter]
  cases hst : s.showTimeout with
  | none =>
      have : s.timers.filter (fun tm => tm.isShow) = [] := by
        rw [List.filter_eq_nil_iff]
        intro tm htm hb
        have := hshow tm htm hb
        rw [hst] at this
        exact Option.noConfusion this
      simp [this]
  | some k =>
      have hsub : ((s.timers.filter (fun tm => tm.isShow)).map Timer.id).Sublist
          (s.timers.map Timer.id) := (List.filter_sublist s.timers).map Timer.id
      have hnd2 : ((s.timers.filter (fun tm => tm.isShow)).map Timer.id).Nodup :=
        hnd.sublist hsub
      have hall : ∀ x ∈ (s.timers.filter (fun tm => tm.isShow)).map Timer.id, x = k := by
        intro x hx
        rcases List.mem_map.mp hx with ⟨tm, htm, rfl⟩
        rcases List.mem_filter.mp htm with ⟨htm2, hb⟩
        have := hshow tm htm2 hb
        rw [hst] at this
        exact (Option.some.inj this).symm
      have hlen := length_le_one_of_nodup_const hnd2 hall
      simpa using hlen

lemma hideCount_le_one {s : TMState} (hOk : TimersOk s) : hideCount s ≤ 1 := by
  rcases hOk with ⟨hnd, -, -, hhide⟩
  rw [hideCount, List.countP_eq_length_filter]
  cases hst : s.hideTimeout with
  | none =>
      have : s.timers.filter (fun tm => !tm.isShow) = [] := by
        rw [List.filter_eq_nil_iff]
        intro tm htm hb
        have := hhide tm htm (by simpa using hb)
        rw [hst] at this
        exact Option.noConfusion this
      simp [this]
  | some k =>
      have hsub : ((s.timers.filter (fun tm => !tm.isShow)).map Timer.id).Sublist
          (s.timers.map Timer.id) := (List.filter_sublist s.timers).map Timer.id
      have hnd2 : ((s.timers.filter (fun tm => !tm.isShow)).map Timer.id).Nodup :=
        hnd.sublist hsub
      have hall : ∀ x ∈ (s.timers.filter (fun tm => !tm.isShow)).map Timer.id, x = k := by
        intro x hx
        rcases List.mem_map.mp hx with ⟨tm, htm, rfl⟩
        rcases List.mem_filter.mp htm with ⟨htm2, hb⟩
        have := hhide tm htm2 (by simpa using hb)
        rw [hst] at this
        exact (Option.some.inj this).symm
      have hlen := length_le_one_of_nodup_const hnd2 hall
      simpa using hlen

lemma inv_of_timers_nil {s : TMState} (h : s.timers = []) (p : Option Bool) : Inv s p :=
  ⟨timersOk_nil h, fun _ => by simp [showCount, h], fun _ => by simp [hideCount, h]⟩

lemma clear_hide_of_no_show {s : TMState}
    (hhide : ∀ tm ∈ s.timers, tm.isShow = false → s.hideTimeout = some tm.id)
    (hsc : showCount s = 0) :
    clearTimeoutL s.hideTimeout s.timers = [] := by
  rw [showCount, List.countP_eq_zero] at hsc
  rw [List.eq_nil_iff_forall_not_mem]
  intro tm htm
  rcases mem_clearTimeoutL.mp htm with ⟨h1, h2⟩
  cases hb : tm.isShow with
  | true => exact absurd hb (by simpa using hsc tm h1)
  | false => exact h2 tm.id (hhide tm h1 hb) rfl

lemma clear_show_of_no_hide {s : TMState}
    (hshow : ∀ tm ∈ s.timers, tm.isShow = true → s.showTimeout = some tm.id)
    (hhc : hideCount s = 0) :
    clearTimeoutL s.showTimeout s.timers = [] := by
  rw [hideCount, List.countP_eq_zero] at hhc
  rw [List.eq_nil_iff_forall_not_mem]
  intro tm htm
  rcases mem_clearTimeoutL.mp htm with ⟨h1, h2⟩
  cases hb : tm.isShow with
  | true => exact h2 tm.id (hshow tm h1 hb) rfl
  | false => exact absurd (by simp [hb]) (hhc tm h1)

lemma inv_showTooltip {env : Env} {h : Nat} {s : TMState} {p : Option Bool}
    (hInv : Inv s p) : Inv (showTooltip env h s).1 p := by
  rcases showTooltip_fst_frame env h s with ⟨h1, h2, h3, h4⟩
  rcases hInv with ⟨⟨ha, hb, hc, hd⟩, he, hf⟩
  refine ⟨⟨?_, ?_, ?_, ?_⟩, ?_, ?_⟩
  · rw [h1]; exact ha
  · rw [h1, h4]; exact hb
  · rw [h1, h2]; exact hc
  · rw [h1, h3]; exact hd
  · intro hp; have h0 := he hp; rw [showCount] at h0 ⊢; rw [h1]; exact h0
  · intro hp; have h0 := hf hp; rw [hideCount] at h0 ⊢; rw [h1]; exact h0

lemma inv_hideTooltip {s : TMState} {p : Option Bool} (hInv : Inv s p)
    (q : Option Bool) : Inv (hideTooltip s) q :=
  inv_of_timers_nil (hideTooltip_timers_nil hInv.1) q

lemma inv_remove_timer {s : TMState} {p : Option Bool} (hInv : Inv s p) (i : Nat) :
    Inv { s with timers := s.timers.filter (fun tm2 => tm2.id != i) } p := by
  rcases hInv with ⟨⟨ha, hb, hc, hd⟩, he, hf⟩
  have hsub : (s.timers.filter (fun tm2 => tm2.id != i)).Sublist s.timers :=
    List.filter_sublist _
  refine ⟨⟨?_, ?_, ?_, ?_⟩, ?_, ?_⟩
  · exact ha.sublist (hsub.map Timer.id)
  · intro tm htm; exact hb tm (hsub.subset htm)
  · intro tm htm hb2; exact hc tm (hsub.subset htm) hb2
  · intro tm htm hb2; exact hd tm (hsub.subset htm) hb2
  · intro hp
    have h0 := he hp
    rw [showCount, List.countP_eq_zero] at h0 ⊢
    intro a ha2
    exact h0 a (hsub.subset (by simpa using ha2))
  · intro hp
    have h0 := hf hp
    rw [hideCount, List.countP_eq_zero] at h0 ⊢
    intro a ha2
    exact h0 a (hsub.subset (by simpa using ha2))

lemma inv_step {env : Env} {s : TMState} {p : Option Bool} {t : Nat} {e : Ev}
    (hInv : Inv s p) (hok : altEvOkB p e = true) :
    Inv (step env s (t, e)) (phaseStep p e) := by
  cases e with
  | enter h =>
      have hp : p ≠ some true := by
        intro hcontra; rw [hcontra] at hok; simp [altEvOkB] at hok
      have hclear : clearTimeoutL s.hideTimeout s.timers = [] :=
        clear_hide_of_no_show hInv.1.2.2.2 (hInv.2.1 hp)
      refine ⟨⟨?_, ?_, ?_, ?_⟩, ?_, ?_⟩ <;>
        simp [step, handleMouseEnter, phaseStep, hclear, showCount, hideCount, TimersOk]
  | leave h =>
      have hp : p ≠ some false := by
        intro hcontra; rw [hcontra] at hok; simp [altEvOkB] at hok
      have hclear : clearTimeoutL s.showTimeout s.timers = [] :=
        clear_show_of_no_hide hInv.1.2.2.1 (hInv.2.2 hp)
      refine ⟨⟨?_, ?_, ?_, ?_⟩, ?_, ?_⟩ <;>
        simp [step, handleMouseLeave, phaseStep, hclear, showCount, hideCount, TimersOk]
  | touch h =>
      simpa [step, handleTouchStart, phaseStep] using inv_showTooltip hInv
  | click h =>
      by_cases hcond : s.activeHotspot = some h ∧ s.visible = true
      · simpa [step, handleClick, hcond, phaseStep] using inv_hideTooltip hInv p
      · simpa [step, handleClick, hcond, phaseStep] using inv_showTooltip hInv
  | docClick =>
      simpa [step, handleDocumentClick, phaseStep] using inv_hideTooltip hInv p
  | scroll =>
      simpa [step, phaseStep] using inv_hideTooltip hInv p
  | fire i =>
      cases hfind : s.timers.find? (fun tm => tm.id == i) with
      | none => simpa [step, fireTimer, hfind, phaseStep] using hInv
      | some tm =>
          have hInv1 := inv_remove_timer hInv i
          cases hb : tm.isShow with
          | true =>
              simpa [step, fireTimer, hfind, hb, phaseStep] using inv_showTooltip hInv1
          | false =>
              simpa [step, fireTimer, hfind, hb, phaseStep] using inv_hideTooltip hInv1 p

lemma inv_run (env : Env) :
    ∀ (evs : List (Nat × Ev)) (s : TMState) (p : Option Bool),
      Inv s p → altOkB p evs = true →
      Inv (run env s evs) (evs.foldl (fun q e => phaseStep q e.2) p) := by
  intro evs
  induction evs with
  | nil => intro s p hInv _; exact hInv
  | cons te rest ih =>
      intro s p hInv halt
      rcases te with ⟨t, e⟩
      rw [altOkB, Bool.and_eq_true] at halt
      exact ih (step env s (t, e)) (phaseStep p e) (inv_step hInv halt.1) halt.2

/-- allFiresB holds for traces consisting purely of timer expiries: the
quiescent continuations in which the user provides no further input. -/
def allFiresB : List (Nat × Ev) → Bool
  | [] => true
  | (_, Ev.fire _) :: rest => allFiresB rest
  | _ => false

lemma run_cons (env : Env) (s : TMState) (x : Nat × Ev) (rest : List (Nat × Ev)) :
    run env s (x :: rest) = run env (step env s x) rest := rfl

lemma validB_le_last {env : Env} :
    ∀ (l : List (Nat × Ev)) (t0 te : Nat) (s : TMState) (e : Ev),
      validB env t0 s (l ++ [(te, e)]) = true → t0 ≤ te := by
  intro l
  induction l with
  | nil =>
      intro t0 te s e hv
      rw [List.nil_append, validB, Bool.and_eq_true, Bool.and_eq_true] at hv
      exact of_decide_eq_true hv.1.1
  | cons x rest ih =>
      intro t0 te s e hv
      rcases x with ⟨t1, e1⟩
      rw [List.cons_append, validB, Bool.and_eq_true, Bool.and_eq_true] at hv
      exact le_trans (of_decide_eq_true hv.1.1) (ih t1 te _ e hv.2)

lemma no_due_fires_frozen {env : Env} {s : TMState} {t0 te : Nat} {e : Ev}
    (mid : List (Nat × Ev))
    (hfires : allFiresB mid = true)
    (hfresh : ∀ tm ∈ s.timers, te < tm.deadline)
    (hv : validB env t0 s (mid ++ [(te, e)]) = true) :
    mid = [] := by
  cases mid with
  | nil => rfl
  | cons x rest =>
      exfalso
      rcases x with ⟨tf, ef⟩
      cases ef with
      | enter h => simp [allFiresB] at hfires
      | leave h => simp [allFiresB] at hfires
      | touch h => simp [allFiresB] at hfires
      | click h => simp [allFiresB] at hfires
      | docClick => simp [allFiresB] at hfires
      | scroll => simp [allFiresB] at hfires
      | fire i =>
          rw [List.cons_append, validB, Bool.and_eq_true, Bool.and_eq_true] at hv
          rcases hv with ⟨⟨-, hfire⟩, hrest⟩
          rw [fireOkB, List.any_eq_true] at hfire
          rcases hfire with ⟨tm, htm, hprop⟩
          rw [Bool.and_eq_true] at hprop
          have hdue : tm.deadline ≤ tf := of_decide_eq_true hprop.2
          have hle : tf ≤ te := validB_le_last rest tf te _ e hrest
          have hfr := hfresh tm htm
          omega

lemma mem_timers_hideTooltip {s : TMState} {tm : Timer}
    (h : tm ∈ (hideTooltip s).timers) : tm ∈ s.timers := by
  have h1 : tm ∈ clearTimeoutL s.hideTimeout (clearTimeoutL s.showTimeout s.timers) := h
  exact (mem_clearTimeoutL.mp (mem_clearTimeoutL.mp h1).1).1

lemma showCount_zero_of_subset {s s2 : TMState}
    (hsub : ∀ tm ∈ s2.timers, tm ∈ s.timers) (hsc : showCount s = 0) :
    showCount s2 = 0 := by
  rw [showCount, List.countP_eq_zero] at hsc ⊢
  intro a ha
  exact hsc a (hsub a ha)

lemma run_fires_hidden {env : Env} :
    ∀ (post : List (Nat × Ev)) (t0 : Nat) (s : TMState),
      allFiresB post = true → validB env t0 s post = true →
      s.visible = false → showCount s = 0 →
      (run env s post).visible = false ∧ showCount (run env s post) = 0 := by
  intro post
  induction post with
  | nil => intro t0 s _ _ hvis hsc; exact ⟨hvis, hsc⟩
  | cons x rest ih =>
      intro t0 s hfires hv hvis hsc
      rcases x with ⟨tf, ef⟩
      cases ef with
      | enter h => simp [allFiresB] at hfires
      | leave h => simp [allFiresB] at hfires
      | touch h => simp [allFiresB] at hfires
      | click h => simp [allFiresB] at hfires
      | docClick => simp [allFiresB] at hfires
      | scroll => simp [allFiresB] at hfires
      | fire i =>
          rw [allFiresB] at hfires
          rw [validB, Bool.and_eq_true, Bool.and_eq_true] at hv
          rcases hv with ⟨-, hrest⟩
          rw [run_cons]
          cases hfind : s.timers.find? (fun tm => tm.id == i) with
          | none =>
              have hstep : step env s (tf, Ev.fire i) = s := by
                simp [step, fireTimer, hfind]
              rw [hstep] at hrest ⊢
              exact ih tf s hfires hrest hvis hsc
          | some tm =>
              have htm : tm ∈ s.timers := List.mem_of_find?_eq_some hfind
              have hnotshow : tm.isShow = false := by
                rw [showCount, List.countP_eq_zero] at hsc
                simpa using hsc tm htm
              have hstep : step env s (tf, Ev.fire i) =
                  hideTooltip { s with timers := s.timers.filter (fun tm2 => tm2.id != i) } := by
                simp [step, fireTimer, hfind, hnotshow]
              rw [hstep] at hrest ⊢
              refine ih tf _ hfires hrest rfl ?_
              refine showCount_zero_of_subset ?_ hsc
              intro a ha
              have h1 := mem_timers_hideTooltip ha
              exact (List.mem_filter.mp h1).1

lemma enter_timers_of_nil {env : Env} {s : TMState} {t h : Nat}
    (htm : s.timers = []) :
    (step env s (t, Ev.enter h)).timers = [⟨s.nextId, true, h, t + 300⟩] ∧
    (step env s (t, Ev.enter h)).showTimeout = some s.nextId ∧
    (step env s (t, Ev.enter h)).visible = s.visible ∧
    (step env s (t, Ev.enter h)).activeHotspot = s.activeHotspot ∧
    (step env s (t, Ev.enter h)).dom = s.dom ∧
    (step env s (t, Ev.enter h)).nextId = s.nextId + 1 := by
  refine ⟨?_, rfl, rfl, rfl, rfl, rfl⟩
  simp [step, handleMouseEnter, htm, clearTimeoutL_nil, showDelay]

lemma leave_timers_of_nil {env : Env} {s : TMState} {tl h : Nat}
    (htm : s.timers = []) :
    (step env s (tl, Ev.leave h)).timers = [⟨s.nextId, false, h, tl + 150⟩] ∧
    (step env s (tl, Ev.leave h)).hideTimeout = some s.nextId ∧
    (step env s (tl, Ev.leave h)).visible = s.visible ∧
    (step env s (tl, Ev.leave h)).activeHotspot = s.activeHotspot ∧
    (step env s (tl, Ev.leave h)).dom = s.dom ∧
    (step env s (tl, Ev.leave h)).nextId = s.nextId + 1 := by
  refine ⟨?_, rfl, rfl, rfl, rfl, rfl⟩
  simp [step, handleMouseLeave, htm, clearTimeoutL_nil, hideDelay]

lemma leave_clears_single_show {env : Env} {s1 : TMState} {tmS : Timer}
    (h1 : s1.timers = [tmS]) (h2 : s1.showTimeout = some tmS.id) (tl h : Nat) :
    (step env s1 (tl, Ev.leave h)).timers = [⟨s1.nextId, false, h, tl + 150⟩] ∧
    (step env s1 (tl, Ev.leave h)).hideTimeout = some s1.nextId ∧
    (step env s1 (tl, Ev.leave h)).visible = s1.visible ∧
    (step env s1 (tl, Ev.leave h)).activeHotspot = s1.activeHotspot ∧
    (step env s1 (tl, Ev.leave h)).dom = s1.dom ∧
    (step env s1 (tl, Ev.leave h)).nextId = s1.nextId + 1 := by
  refine ⟨?_, rfl, rfl, rfl, rfl, rfl⟩
  simp [step, handleMouseLeave, h1, h2, clearTimeoutL, hideDelay]

lemma enter_clears_single_hide {env : Env} {s1 : TMState} {tmH : Timer}
    (h1 : s1.timers = [tmH]) (h2 : s1.hideTimeout = some tmH.id) (te h : Nat) :
    (step env s1 (te, Ev.enter h)).timers = [⟨s1.nextId, true, h, te + 300⟩] ∧
    (step env s1 (te, Ev.enter h)).showTimeout = some s1.nextId ∧
    (step env s1 (te, Ev.enter h)).visible = s1.visible ∧
    (step env s1 (te, Ev.enter h)).activeHotspot = s1.activeHotspot ∧
    (step env s1 (te, Ev.enter h)).dom = s1.dom ∧
    (step env s1 (te, Ev.enter h)).nextId = s1.nextId + 1 := by
  refine ⟨?_, rfl, rfl, rfl, rfl, rfl⟩
  simp [step, handleMouseEnter, h1, h2, clearTimeoutL, showDelay]

lemma fire_single_show {env : Env} {s1 : TMState} {n h d : Nat}
    (h1 : s1.timers = [⟨n, true, h, d⟩]) {info : ProjectInfo}
    (hreg : env.projectData (env.dataset h) = some info) (tf : Nat) :
    (step env s1 (tf, Ev.fire n)).visible = true ∧
    (step env s1 (tf, Ev.fire n)).activeHotspot = some h ∧
    (step env s1 (tf, Ev.fire n)).dom = populateTooltip info ∧
    (step env s1 (tf, Ev.fire n)).timers = [] := by
  have hfind : s1.timers.find? (fun tm => tm.id == n) = some ⟨n, true, h, d⟩ := by
    rw [h1]; simp [List.find?]
  refine ⟨?_, ?_, ?_, ?_⟩ <;>
    simp [step, fireTimer, hfind, showTooltip, hreg, h1]

lemma valid_fire_single {env : Env} {s1 : TMState} {n h d : Nat}
    (h1 : s1.timers = [⟨n, true, h, d⟩]) (t0 tf : Nat) (hle : t0 ≤ tf)
    (hdue : d ≤ tf) :
    validB env t0 s1 [(tf, Ev.fire n)] = true := by
  simp [validB, fireOkB, h1, hle, hdue]

/-- C1: the claim states that showing a new hotspot while the tooltip is
Visible for a different hotspot clears the active flag of the previous
hotspot, leaving at most one flagged hotspot.  The code violates this:
showTooltip never removes the active class from the previous hotspot (only
hideTooltip does, and the click-a-different-hotspot path bypasses it), so
after click on hotspot 1 then click on hotspot 2 both hotspots carry the
active class.  The Visible to Visible part does hold (both states are
visible, with the associated hotspot swapped). -/
theorem stale_active_flag_on_hotspot_switch :
    (run demoEnv initState [(0, Ev.click 1)]).visible = true ∧
    (run demoEnv initState [(0, Ev.click 1)]).activeHotspot = some 1 ∧
    (run demoEnv initState [(0, Ev.click 1), (1, Ev.click 2)]).visible = true ∧
    (run demoEnv initState [(0, Ev.click 1), (1, Ev.click 2)]).activeHotspot = some 2 ∧
    (run demoEnv initState [(0, Ev.click 1), (1, Ev.click 2)]).activeFlags = [1, 2] := by
  decide

/-- C2: the claim states that destroy removes every listener registered by
bindEvents so that no callback fires after teardown.  The code violates this:
bindEvents registers fresh arrow-function wrappers while destroy passes the
bound method properties to removeEventListener, so no (target, name,
function) triple matches and the listener list is unchanged; the mouseenter
listener of hotspot 1 is still registered after destroy and handling a
mouseenter still schedules a show timer.  The timer half of the claim does
hold: destroy cancels both pending timers via hideTooltip. -/
theorem destroy_leaves_listeners_registered :
    destroyRemovals [1] (bindEvents [1]) = bindEvents [1] ∧
    (bindEvents [1]).length = 8 ∧
    Listener.mk (EvtTarget.hotspotEl 1) EvtName.mouseenter (JsFun.arrowEnter 1) ∈
      (destroy [1] (run demoEnv initState [(0, Ev.click 1)]) (bindEvents [1])).2 ∧
    (destroy [1] (run demoEnv initState [(0, Ev.click 1)]) (bindEvents [1])).1.timers = [] ∧
    (step demoEnv (destroy [1] (run demoEnv initState [(0, Ev.click 1)]) (bindEvents [1])).1
        (5, Ev.enter 1)).timers ≠ [] := by
  decide

/-- C3 counterexample: handleMouseEnter starts a show timer but cancels only
the hide timer, never a prior show timer, so after two mouseenter events
without an intervening mouseleave (possible with nested hotspots, since the
trace is valid in the event model) two show timers are outstanding at once,
refuting the claim that every operation starting a timer of a kind first
cancels any prior outstanding timer of that kind. -/
theorem enter_enter_two_show_timers :
    validB demoEnv 0 initState [(0, Ev.enter 1), (10, Ev.enter 2)] = true ∧
    showCount (run demoEnv initState [(0, Ev.enter 1)]) = 1 ∧
    showCount (run demoEnv initState [(0, Ev.enter 1), (10, Ev.enter 2)]) = 2 := by
  decide

/-- C3 amended: each timer-starting operation cancels the outstanding timer
of the opposite kind (mouseenter the hide timer, mouseleave the show timer),
and under strictly alternating mouseenter / mouseleave events (the DOM
guarantee for non-nested hotspots) at most one timer of each kind is
outstanding in every reachable state. -/
theorem timer_invariant_alternating_hover (env : Env) (evs : List (Nat × Ev))
    (halt : altOkB none evs = true) :
    showCount (run env initState evs) ≤ 1 ∧
    hideCount (run env initState evs) ≤ 1 ∧
    (∀ (s : TMState) (t h : Nat), TimersOk s →
        hideCount (handleMouseEnter t h s) = 0 ∧
        showCount (handleMouseLeave t h s) = 0) := by
  have hInv0 : Inv initState none := inv_of_timers_nil rfl none
  have hInv := inv_run env evs initState none hInv0 halt
  refine ⟨showCount_le_one hInv.1, hideCount_le_one hInv.1, ?_⟩
  intro s t h hOk
  constructor
  · rw [hideCount, List.countP_eq_zero]
    intro tm htm hb2
    have hb : tm.isShow = false := by simpa using hb2
    have h2 : tm ∈ clearTimeoutL s.hideTimeout s.timers
        ++ [⟨s.nextId, true, h, t + showDelay⟩] := htm
    rcases List.mem_append.mp h2 with h3 | h3
    · rcases mem_clearTimeoutL.mp h3 with ⟨h4, h5⟩
      exact h5 tm.id (hOk.2.2.2 tm h4 hb) rfl
    · have : tm = ⟨s.nextId, true, h, t + showDelay⟩ := by simpa using h3
      rw [this] at hb
      exact Bool.noConfusion hb
  · rw [showCount, List.countP_eq_zero]
    intro tm htm hb
    have h2 : tm ∈ clearTimeoutL s.showTimeout s.timers
        ++ [⟨s.nextId, false, h, t + hideDelay⟩] := htm
    rcases List.mem_append.mp h2 with h3 | h3
    · rcases mem_clearTimeoutL.mp h3 with ⟨h4, h5⟩
      exact h5 tm.id (hOk.2.2.1 tm h4 hb) rfl
    · have : tm = ⟨s.nextId, false, h, t + hideDelay⟩ := by simpa using h3
      rw [this] at hb
      exact Bool.noConfusion hb

/-- Witness for the amended C3 theorem at a concrete alternating trace and a
concrete state for the cancellation clauses. -/
theorem timer_invariant_alternating_hover_witness :
    showCount (run demoEnv initState
      [(0, Ev.enter 1), (40, Ev.leave 1), (60, Ev.enter 1)]) ≤ 1 ∧
    hideCount (run demoEnv initState
      [(0, Ev.enter 1), (40, Ev.leave 1), (60, Ev.enter 1)]) ≤ 1 ∧
    (hideCount (handleMouseEnter 0 1 initState) = 0 ∧
     showCount (handleMouseLeave 0 1 initState) = 0) :=
  ⟨(timer_invariant_alternating_hover demoEnv
      [(0, Ev.enter 1), (40, Ev.leave 1), (60, Ev.enter 1)] (by decide)).1,
   (timer_invariant_alternating_hover demoEnv
      [(0, Ev.enter 1), (40, Ev.leave 1), (60, Ev.enter 1)] (by decide)).2.1,
   (timer_invariant_alternating_hover demoEnv
      [(0, Ev.enter 1), (40, Ev.leave 1), (60, Ev.enter 1)] (by decide)).2.2
     initState 0 1 (timersOk_nil rfl)⟩

/-- C4: a show request for a hotspot whose identifier has no entry in the
project-data registry emits the diagnostic (the returned flag, modelling
console.warn) and returns with the coordinator state completely unchanged:
the tooltip does not become visible and no hotspot, flag or timer changes. -/
theorem showTooltip_missing_data_noop (env : Env) (h : Nat) (s : TMState)
    (hmiss : env.projectData (env.dataset h) = none) :
    showTooltip env h s = (s, true) := by
  unfold showTooltip
  rw [hmiss]

/-- Witness for C4: hotspot 9 maps to key project9, which main.js does not
register. -/
theorem showTooltip_missing_data_noop_witness :
    demoEnv.projectData (demoEnv.dataset 9) = none ∧
    showTooltip demoEnv 9 initState = (initState, true) :=
  ⟨by decide, showTooltip_missing_data_noop demoEnv 9 initState (by decide)⟩

/-- C8: whenever the device is touch-capable or the viewport is narrower than
768 pixels, positionTooltip writes the fixed bottom-sheet style (left 50
percent with translateX(-50%), bottom pinned 20px from the viewport bottom,
tagged bottom) and its result is independent of the hotspot rectangle. -/
theorem mobile_placement_ignores_geometry (isTouch : Bool) (vp : Size)
    (tr hr hr2 : Rect) (hmob : isTouch = true ∨ vp.width < 768) :
    positionTooltip isTouch vp tr hr =
      { left := some (CssLen.pct 50), top := some CssLen.auto
      , bottom := some (CssLen.px 20), transform := Transform.translateXHalf
      , side := Side.bottom } ∧
    positionTooltip isTouch vp tr hr = positionTooltip isTouch vp tr hr2 := by
  constructor
  · simp only [positionTooltip, if_pos hmob]
  · simp only [positionTooltip, if_pos hmob]

/-- Witness for C8 at viewport width 500 (the spec example) on a non-touch
device, with two very different hotspot rectangles. -/
theorem mobile_placement_ignores_geometry_witness :
    positionTooltip false ⟨500, 800⟩ ⟨0, 0, 260, 120⟩ ⟨40, 40, 24, 24⟩ =
      { left := some (CssLen.pct 50), top := some CssLen.auto
      , bottom := some (CssLen.px 20), transform := Transform.translateXHalf
      , side := Side.bottom } ∧
    positionTooltip false ⟨500, 800⟩ ⟨0, 0, 260, 120⟩ ⟨40, 40, 24, 24⟩ =
      positionTooltip false ⟨500, 800⟩ ⟨0, 0, 260, 120⟩ ⟨400, 700, 5, 5⟩ :=
  mobile_placement_ignores_geometry false ⟨500, 800⟩ ⟨0, 0, 260, 120⟩
    ⟨40, 40, 24, 24⟩ ⟨400, 700, 5, 5⟩ (Or.inr (by norm_num))

/-- C9 counterexample: the claim says the follow position never clips any
viewport edge for every cursor position, tooltip size and viewport size.  In
a 500 by 500 viewport with a 100 by 450 tooltip and the cursor at (250, 400),
the above-cursor position clips the top, so the code falls back to below the
cursor at top 415; the tooltip bottom is then 415 + 450 = 865, past the
bottom viewport edge: there is no bottom clamp. -/
theorem follow_position_clips_bottom :
    updateTooltipPosition true true false ⟨500, 500⟩ 100 450 250 400 =
      some (250, 415) ∧
    (415 : ℚ) + 450 > (500 : ℚ) := by
  constructor
  · norm_num [updateTooltipPosition, followPosition]
  · norm_num

/-- C9 amended: in pointer-follow mode the tooltip is placed at the cursor x
with its bottom 15px above the cursor; the horizontal clamps guarantee no
left or right clipping whenever the tooltip width plus both 15px margins fits
the viewport, and the vertical fallback (below the cursor) guarantees no top
clipping for on-screen cursors, but the bottom edge is not protected. -/
theorem follow_position_clamped (vp : Size) (tw th x y : ℚ)
    (hy : 0 ≤ y) (hw : tw + 30 ≤ vp.width) :
    updateTooltipPosition true true false vp tw th x y =
      some (followPosition vp tw th x y) ∧
    15 ≤ (followPosition vp tw th x y).1 ∧
    (followPosition vp tw th x y).1 + tw ≤ vp.width - 15 ∧
    15 ≤ (followPosition vp tw th x y).2 ∧
    ((followPosition vp tw th x y).2 = y - th - 15 ∨
     (followPosition vp tw th x y).2 = y + 15) := by
  refine ⟨rfl, ?_⟩
  simp only [followPosition]
  split_ifs with h1 h2 h3 <;>
    refine ⟨?_, ?_, ?_, ?_⟩ <;>
      first
        | linarith
        | exact Or.inl rfl
        | exact Or.inr rfl

/-- C5: from a quiescent state, a mouseenter schedules the show exactly 300ms
out: (i) letting the timer fire at any time at least 300ms later is a valid
trace and leaves the tooltip visible and populated with the registered title,
description and tech tags of that hotspot; (ii) the timer cannot validly fire
strictly before 300ms have elapsed; (iii) a mouseleave before 300ms cancels
the show timer, and no continuation of pure timer expiries ever makes the
tooltip visible. -/
theorem show_delay_semantics (env : Env) :
    (∀ (s : TMState) (h : Nat) (info : ProjectInfo) (t tf : Nat),
        s.timers = [] →
        env.projectData (env.dataset h) = some info →
        t + 300 ≤ tf →
        validB env t (step env s (t, Ev.enter h)) [(tf, Ev.fire s.nextId)] = true ∧
        (step env (step env s (t, Ev.enter h)) (tf, Ev.fire s.nextId)).visible = true ∧
        (step env (step env s (t, Ev.enter h)) (tf, Ev.fire s.nextId)).activeHotspot = some h ∧
        (step env (step env s (t, Ev.enter h)) (tf, Ev.fire s.nextId)).dom.title = info.title ∧
        (step env (step env s (t, Ev.enter h)) (tf, Ev.fire s.nextId)).dom.description
          = info.description ∧
        (step env (step env s (t, Ev.enter h)) (tf, Ev.fire s.nextId)).dom.techHTML
          = techHtml info.tech) ∧
    (∀ (s : TMState) (h : Nat) (t tf2 : Nat),
        s.timers = [] → tf2 < t + 300 →
        validB env t (step env s (t, Ev.enter h)) [(tf2, Ev.fire s.nextId)] = false) ∧
    (∀ (s : TMState) (h : Nat) (t tl : Nat) (post : List (Nat × Ev)),
        s.visible = false → s.timers = [] → tl < t + 300 →
        allFiresB post = true →
        validB env t s ((t, Ev.enter h) :: (tl, Ev.leave h) :: post) = true →
        (run env s ((t, Ev.enter h) :: (tl, Ev.leave h) :: post)).visible = false) := by
  refine ⟨?_, ?_, ?_⟩
  · intro s h info t tf htm hreg htf
    have hall := @enter_timers_of_nil env s t h htm
    refine ⟨valid_fire_single hall.1 t tf (by omega) (by omega), ?_⟩
    have hf := @fire_single_show env (step env s (t, Ev.enter h)) s.nextId h (t + 300)
      hall.1 info hreg tf
    refine ⟨hf.1, hf.2.1, ?_, ?_, ?_⟩
    · rw [hf.2.2.1]; rfl
    · rw [hf.2.2.1]; rfl
    · rw [hf.2.2.1]; rfl
  · intro s h t tf2 htm hlt
    have hs1 := (@enter_timers_of_nil env s t h htm).1
    simp [validB, fireOkB, hs1]
    omega
  · intro s h t tl post hvis htm hlt hfires hv
    have he := @enter_timers_of_nil env s t h htm
    have hl := @leave_clears_single_show env (step env s (t, Ev.enter h))
      ⟨s.nextId, true, h, t + 300⟩ he.1 he.2.1 tl h
    rw [validB, Bool.and_eq_true, Bool.and_eq_true] at hv
    rw [validB, Bool.and_eq_true, Bool.and_eq_true] at hv
    have hv3 := hv.2.2
    rw [run_cons, run_cons]
    have hvis2 : (step env (step env s (t, Ev.enter h)) (tl, Ev.leave h)).visible = false := by
      rw [hl.2.2.1, he.2.2.1, hvis]
    have hsc2 : showCount (step env (step env s (t, Ev.enter h)) (tl, Ev.leave h)) = 0 := by
      simp [showCount, hl.1]
    exact (run_fires_hidden post tl _ hfires hv3 hvis2 hsc2).1

/-- Witness for C5 with hotspot 1 of the repository data: enter at 0 and fire
at 300 shows the populated tooltip; firing at 299 is invalid; enter at 0 then
leave at 100 leaves the tooltip hidden. -/
theorem show_delay_semantics_witness :
    (validB demoEnv 0 (step demoEnv initState (0, Ev.enter 1)) [(300, Ev.fire 0)] = true ∧
     (step demoEnv (step demoEnv initState (0, Ev.enter 1)) (300, Ev.fire 0)).visible = true ∧
     (step demoEnv (step demoEnv initState (0, Ev.enter 1)) (300, Ev.fire 0)).activeHotspot
       = some 1 ∧
     (step demoEnv (step demoEnv initState (0, Ev.enter 1)) (300, Ev.fire 0)).dom.title
       = "E-Commerce Platform" ∧
     (step demoEnv (step demoEnv initState (0, Ev.enter 1)) (300, Ev.fire 0)).dom.description
       = "Full-stack online shopping platform with payment integration, user authentication, and admin dashboard." ∧
     (step demoEnv (step demoEnv initState (0, Ev.enter 1)) (300, Ev.fire 0)).dom.techHTML
       = techHtml ["React", "Node.js", "MongoDB", "Stripe"]) ∧
    validB demoEnv 0 (step demoEnv initState (0, Ev.enter 1)) [(299, Ev.fire 0)] = false ∧
    (run demoEnv initState [(0, Ev.enter 1), (100, Ev.leave 1), (400, Ev.fire 1)]).visible
      = false :=
  ⟨(show_delay_semantics demoEnv).1 initState 1
      { title := "E-Commerce Platform"
      , description := "Full-stack online shopping platform with payment integration, user authentication, and admin dashboard."
      , tech := ["React", "Node.js", "MongoDB", "Stripe"]
      , liveUrl := "https://example.com"
      , githubUrl := "https://github.com/username/project1" }
      0 300 rfl (by decide) (by decide),
   (show_delay_semantics demoEnv).2.1 initState 1 0 299 rfl (by decide),
   (show_delay_semantics demoEnv).2.2 initState 1 0 100 [(400, Ev.fire 1)]
      rfl rfl (by decide) rfl (by decide)⟩

/-- C6: from a Visible state with the associated hotspot and no pending
timers, a mouseleave followed (after any valid quiescent interval) by a
re-enter of the same hotspot strictly within 150ms never hides the tooltip:
no timer can validly fire in between, the pending hide timer is cancelled by
the re-enter, and the state is again Visible for the same hotspot with no
outstanding hide timer. -/
theorem reenter_cancels_pending_hide (env : Env) (s : TMState)
    (h t0 tl te : Nat) (mid : List (Nat × Ev))
    (hvis : s.visible = true) (hact : s.activeHotspot = some h)
    (htm : s.timers = [])
    (hmid : allFiresB mid = true) (hte : te < tl + 150)
    (hv : validB env t0 s ((tl, Ev.leave h) :: (mid ++ [(te, Ev.enter h)])) = true) :
    (run env s ((tl, Ev.leave h) :: (mid ++ [(te, Ev.enter h)]))).visible = true ∧
    (run env s ((tl, Ev.leave h) :: (mid ++ [(te, Ev.enter h)]))).activeHotspot = some h ∧
    hideCount (run env s ((tl, Ev.leave h) :: (mid ++ [(te, Ev.enter h)]))) = 0 := by
  have hl := @leave_timers_of_nil env s tl h htm
  rw [validB, Bool.and_eq_true, Bool.and_eq_true] at hv
  have hv2 := hv.2
  have hfresh : ∀ tm ∈ (step env s (tl, Ev.leave h)).timers, te < tm.deadline := by
    intro tm htm2
    rw [hl.1] at htm2
    have : tm = ⟨s.nextId, false, h, tl + 150⟩ := by simpa using htm2
    rw [this]
    exact hte
  have hmid0 : mid = [] := no_due_fires_frozen mid hmid hfresh hv2
  subst hmid0
  simp only [List.nil_append]
  rw [run_cons, run_cons]
  have hen := @enter_clears_single_hide env (step env s (tl, Ev.leave h))
    ⟨s.nextId, false, h, tl + 150⟩ hl.1 hl.2.1 te h
  refine ⟨?_, ?_, ?_⟩
  · rw [show run env (step env (step env s (tl, Ev.leave h)) (te, Ev.enter h)) [] =
        step env (step env s (tl, Ev.leave h)) (te, Ev.enter h) from rfl]
    rw [hen.2.2.1, hl.2.2.1, hvis]
  · rw [show run env (step env (step env s (tl, Ev.leave h)) (te, Ev.enter h)) [] =
        step env (step env s (tl, Ev.leave h)) (te, Ev.enter h) from rfl]
    rw [hen.2.2.2.1, hl.2.2.2.1, hact]
  · rw [show run env (step env (step env s (tl, Ev.leave h)) (te, Ev.enter h)) [] =
        step env (step env s (tl, Ev.leave h)) (te, Ev.enter h) from rfl]
    simp [hideCount, hen.1]

/-- Witness for C6: show hotspot 1 by click, leave at 10, re-enter at 100
(within the 150ms hide delay). -/
theorem reenter_cancels_pending_hide_witness :
    (run demoEnv (run demoEnv initState [(0, Ev.click 1)])
        [(10, Ev.leave 1), (100, Ev.enter 1)]).visible = true ∧
    (run demoEnv (run demoEnv initState [(0, Ev.click 1)])
        [(10, Ev.leave 1), (100, Ev.enter 1)]).activeHotspot = some 1 ∧
    hideCount (run demoEnv (run demoEnv initState [(0, Ev.click 1)])
        [(10, Ev.leave 1), (100, Ev.enter 1)]) = 0 :=
  reenter_cancels_pending_hide demoEnv (run demoEnv initState [(0, Ev.click 1)])
    1 0 10 100 [] (by decide) (by decide) (by decide) rfl (by decide) (by decide)

/-- C7: after any reachable alternating-hover trace, a scroll event hides the
tooltip synchronously and unconditionally: the visible class is removed, the
active flag of the associated hotspot is removed and the association cleared,
and every outstanding timer of either kind is cancelled. -/
theorem scroll_hides_from_any_state (env : Env) (evs : List (Nat × Ev)) (t : Nat)
    (halt : altOkB none evs = true) :
    (step env (run env initState evs) (t, Ev.scroll)).visible = false ∧
    (step env (run env initState evs) (t, Ev.scroll)).activeHotspot = none ∧
    (step env (run env initState evs) (t, Ev.scroll)).timers = [] ∧
    (∀ a, (run env initState evs).activeHotspot = some a →
        a ∉ (step env (run env initState evs) (t, Ev.scroll)).activeFlags) := by
  have hInv := inv_run env evs initState none (inv_of_timers_nil rfl none) halt
  refine ⟨rfl, rfl, hideTooltip_timers_nil hInv.1, ?_⟩
  intro a hact hmem
  simp [step, hideTooltip, hact, List.mem_filter] at hmem

/-- Witness for C7: scroll at time 50 after hovering hotspot 1. -/
theorem scroll_hides_from_any_state_witness :
    (step demoEnv (run demoEnv initState [(0, Ev.enter 1)]) (50, Ev.scroll)).visible = false ∧
    (step demoEnv (run demoEnv initState [(0, Ev.enter 1)]) (50, Ev.scroll)).activeHotspot
      = none ∧
    (step demoEnv (run demoEnv initState [(0, Ev.enter 1)]) (50, Ev.scroll)).timers = [] ∧
    ((run demoEnv initState [(0, Ev.enter 1)]).activeHotspot = some 1 →
      1 ∉ (step demoEnv (run demoEnv initState [(0, Ev.enter 1)]) (50, Ev.scroll)).activeFlags) :=
  ⟨(scroll_hides_from_any_state demoEnv [(0, Ev.enter 1)] 50 (by decide)).1,
   (scroll_hides_from_any_state demoEnv [(0, Ev.enter 1)] 50 (by decide)).2.1,
   (scroll_hides_from_any_state demoEnv [(0, Ev.enter 1)] 50 (by decide)).2.2.1,
   (scroll_hides_from_any_state demoEnv [(0, Ev.enter 1)] 50 (by decide)).2.2.2 1⟩

/-- C10: while Visible for hotspot A with no pending timers, leaving A and
entering a different hotspot B strictly within the 150ms hide delay cancels
the hide timer scheduled by the leave: the tooltip stays visible with the
content and association of A, the only outstanding timer is the show timer
for B due 300ms after the enter, and that timer can validly fire once the
show delay has elapsed, at which point B becomes the associated hotspot and
the content switches to the registered data of B. -/
theorem cross_hotspot_enter_cancels_hide (env : Env) (s : TMState)
    (hA hB : Nat) (infoB : ProjectInfo) (t0 tl te tf : Nat)
    (mid : List (Nat × Ev))
    (hvis : s.visible = true) (hact : s.activeHotspot = some hA)
    (htm : s.timers = [])
    (hreg : env.projectData (env.dataset hB) = some infoB)
    (hmid : allFiresB mid = true) (hte : te < tl + 150) (htf : te + 300 ≤ tf)
    (hv : validB env t0 s ((tl, Ev.leave hA) :: (mid ++ [(te, Ev.enter hB)])) = true) :
    (run env s ((tl, Ev.leave hA) :: (mid ++ [(te, Ev.enter hB)]))).visible = true ∧
    (run env s ((tl, Ev.leave hA) :: (mid ++ [(te, Ev.enter hB)]))).activeHotspot = some hA ∧
    (run env s ((tl, Ev.leave hA) :: (mid ++ [(te, Ev.enter hB)]))).dom = s.dom ∧
    (run env s ((tl, Ev.leave hA) :: (mid ++ [(te, Ev.enter hB)]))).timers
      = [⟨s.nextId + 1, true, hB, te + 300⟩] ∧
    validB env te (run env s ((tl, Ev.leave hA) :: (mid ++ [(te, Ev.enter hB)])))
      [(tf, Ev.fire (s.nextId + 1))] = true ∧
    (step env (run env s ((tl, Ev.leave hA) :: (mid ++ [(te, Ev.enter hB)])))
        (tf, Ev.fire (s.nextId + 1))).visible = true ∧
    (step env (run env s ((tl, Ev.leave hA) :: (mid ++ [(te, Ev.enter hB)])))
        (tf, Ev.fire (s.nextId + 1))).activeHotspot = some hB ∧
    (step env (run env s ((tl, Ev.leave hA) :: (mid ++ [(te, Ev.enter hB)])))
        (tf, Ev.fire (s.nextId + 1))).dom = populateTooltip infoB := by
  have hl := @leave_timers_of_nil env s tl hA htm
  rw [validB, Bool.and_eq_true, Bool.and_eq_true] at hv
  have hv2 := hv.2
  have hfresh : ∀ tm ∈ (step env s (tl, Ev.leave hA)).timers, te < tm.deadline := by
    intro tm htm2
    rw [hl.1] at htm2
    have : tm = ⟨s.nextId, false, hA, tl + 150⟩ := by simpa using htm2
    rw [this]
    exact hte
  have hmid0 : mid = [] := no_due_fires_frozen mid hmid hfresh hv2
  subst hmid0
  simp only [List.nil_append]
  rw [run_cons, run_cons]
  rw [show ∀ s2, run env s2 ([] : List (Nat × Ev)) = s2 from fun _ => rfl]
  have hen := @enter_clears_single_hide env (step env s (tl, Ev.leave hA))
    ⟨s.nextId, false, hA, tl + 150⟩ hl.1 hl.2.1 te hB
  have htimers : (step env (step env s (tl, Ev.leave hA)) (te, Ev.enter hB)).timers
      = [⟨s.nextId + 1, true, hB, te + 300⟩] := by
    rw [hen.1, hl.2.2.2.2.2]
  have hfire := @fire_single_show env
    (step env (step env s (tl, Ev.leave hA)) (te, Ev.enter hB))
    (s.nextId + 1) hB (te + 300) htimers infoB hreg tf
  refine ⟨?_, ?_, ?_, htimers, ?_, hfire.1, hfire.2.1, hfire.2.2.1⟩
  · rw [hen.2.2.1, hl.2.2.1, hvis]
  · rw [hen.2.2.2.1, hl.2.2.2.1, hact]
  · rw [hen.2.2.2.2.1, hl.2.2.2.2.1]
  · exact valid_fire_single htimers te tf (by omega) (by omega)

/-- Witness for C10: visible for hotspot 1, leave at 10, enter hotspot 2 at
100, show timer for hotspot 2 fires at 400. -/
theorem cross_hotspot_enter_cancels_hide_witness :
    (run demoEnv (run demoEnv initState [(0, Ev.click 1)])
        [(10, Ev.leave 1), (100, Ev.enter 2)]).visible = true ∧
    (run demoEnv (run demoEnv initState [(0, Ev.click 1)])
        [(10, Ev.leave 1), (100, Ev.enter 2)]).activeHotspot = some 1 ∧
    (run demoEnv (run demoEnv initState [(0, Ev.click 1)])
        [(10, Ev.leave 1), (100, Ev.enter 2)]).dom
      = (run demoEnv initState [(0, Ev.click 1)]).dom ∧
    (run demoEnv (run demoEnv initState [(0, Ev.click 1)])
        [(10, Ev.leave 1), (100, Ev.enter 2)]).timers = [⟨1, true, 2, 400⟩] ∧
    validB demoEnv 100 (run demoEnv (run demoEnv initState [(0, Ev.click 1)])
        [(10, Ev.leave 1), (100, Ev.enter 2)]) [(400, Ev.fire 1)] = true ∧
    (step demoEnv (run demoEnv (run demoEnv initState [(0, Ev.click 1)])
        [(10, Ev.leave 1), (100, Ev.enter 2)]) (400, Ev.fire 1)).visible = true ∧
    (step demoEnv (run demoEnv (run demoEnv initState [(0, Ev.click 1)])
        [(10, Ev.leave 1), (100, Ev.enter 2)]) (400, Ev.fire 1)).activeHotspot = some 2 ∧
    (step demoEnv (run demoEnv (run demoEnv initState [(0, Ev.click 1)])
        [(10, Ev.leave 1), (100, Ev.enter 2)]) (400, Ev.fire 1)).dom
      = populateTooltip
          { title := "Weather Dashboard"
          , description := "Real-time weather application with geolocation, forecasts, and interactive maps."
          , tech := ["Vue.js", "API Integration", "Chart.js"]
          , liveUrl := "https://example.com"
          , githubUrl := "https://github.com/username/project2" } :=
  cross_hotspot_enter_cancels_hide demoEnv (run demoEnv initState [(0, Ev.click 1)])
    1 2
    { title := "Weather Dashboard"
    , description := "Real-time weather application with geolocation, forecasts, and interactive maps."
    , tech := ["Vue.js", "API Integration", "Chart.js"]
    , liveUrl := "https://example.com"
    , githubUrl := "https://github.com/username/project2" }
    0 10 100 400 [] (by decide) (by decide) (by decide) (by decide) rfl
    (by decide) (by decide) (by decide)

/-- Witness for the amended C9 theorem at a concrete desktop geometry. -/
theorem follow_position_clamped_witness :
    updateTooltipPosition true true false ⟨800, 600⟩ 100 50 400 300 =
      some (followPosition ⟨800, 600⟩ 100 50 400 300) ∧
    15 ≤ (followPosition ⟨800, 600⟩ 100 50 400 300).1 ∧
    (followPosition ⟨800, 600⟩ 100 50 400 300).1 + 100 ≤ (800 : ℚ) - 15 ∧
    15 ≤ (followPosition ⟨800, 600⟩ 100 50 400 300).2 ∧
    ((followPosition ⟨800, 600⟩ 100 50 400 300).2 = (300 : ℚ) - 50 - 15 ∨
     (followPosition ⟨800, 600⟩ 100 50 400 300).2 = (300 : ℚ) + 15) :=
  follow_position_clamped ⟨800, 600⟩ 100 50 400 300 (by norm_num) (by norm_num)

end Turfmapp
